import Mathlib

/-!
Verification of the pong-tui terminal application (src/main.rs).

The development shallowly embeds the application state machine
(`App`, `Mode`, `App.on_key_event`, `App.handle_crossterm_events`),
the render dispatcher (`App.render`, `center_line`) and the control
flow of `main`, and proves the specified properties about them.
-/

/-- Key codes delivered by the terminal event layer (crossterm KeyCode).
The program only distinguishes Esc, Enter and Char; the remaining
variants model the other keys an event can carry. -/
inductive KeyCode where
  | Esc
  | Enter
  | Char (c : Char)
  | Backspace
  | Tab
  | Up
  | Down
  | Left
  | Right
  | F (n : Nat)
  deriving DecidableEq

/-- Keyboard modifier flags (crossterm KeyModifiers bitflags:
SHIFT, CONTROL, ALT, SUPER, HYPER, META), modelled as one boolean
per flag. -/
structure KeyModifiers where
  shift : Bool
  control : Bool
  alt : Bool
  superKey : Bool
  hyper : Bool
  metaKey : Bool
  deriving DecidableEq

/-- No modifier held. -/
def KeyModifiers.NONE : KeyModifiers :=
  ⟨false, false, false, false, false, false⟩

/-- Exactly the CONTROL modifier. -/
def KeyModifiers.CONTROL : KeyModifiers :=
  ⟨false, true, false, false, false, false⟩

/-- Exactly the ALT modifier. -/
def KeyModifiers.ALT : KeyModifiers :=
  ⟨false, false, true, false, false, false⟩

/-- CONTROL and SHIFT held together. -/
def KeyModifiers.CONTROL_SHIFT : KeyModifiers :=
  ⟨true, true, false, false, false, false⟩

/-- Whether a key event is a press, repeat or release (crossterm
KeyEventKind). -/
inductive KeyEventKind where
  | Press
  | Repeat
  | Release
  deriving DecidableEq

/-- A keyboard event: code, modifiers and kind (crossterm KeyEvent). -/
structure KeyEvent where
  code : KeyCode
  modifiers : KeyModifiers
  kind : KeyEventKind
  deriving DecidableEq

/-- Terminal input events (crossterm Event). Mouse payloads are
abstracted to a number; resize carries the new dimensions. -/
inductive Event where
  | Key (k : KeyEvent)
  | Mouse (payload : Nat)
  | Resize (w h : Nat)
  | FocusGained
  | FocusLost
  | Paste (s : String)
  deriving DecidableEq

/-- The display mode: menu screen or game screen (enum Mode). -/
inductive Mode where
  | Menu
  | Game
  deriving DecidableEq

/-- Mode::default() returns Mode::Menu. -/
def Mode.default : Mode := Mode.Menu

/-- The application state: running flag and display mode (struct App). -/
structure App where
  running : Bool
  mode : Mode
  deriving DecidableEq

/-- The derived Default for App: bool::default() is false and
Mode::default() is Menu. -/
def App.default : App := { running := false, mode := Mode.default }

/-- App::new() returns Self::default(). -/
def App.new : App := App.default

/-- App::quit sets running to false. -/
def App.quit (s : App) : App := { s with running := false }

/-- App::start_game sets mode to Game. -/
def App.start_game (s : App) : App := { s with mode := Mode.Game }

/-- The first match arm of App::on_key_event:
(_, Esc | Char(q)) | (CONTROL, Char(c) | Char(C)). -/
def quitArmMatches (m : KeyModifiers) (c : KeyCode) : Bool :=
  c = KeyCode.Esc || c = KeyCode.Char 'q' ||
    (m = KeyModifiers.CONTROL && (c = KeyCode.Char 'c' || c = KeyCode.Char 'C'))

/-- App::on_key_event: match on (modifiers, code); the quit arm calls
quit, the (_, Enter) arm calls start_game, every other key leaves the
state unchanged. -/
def App.on_key_event (s : App) (key : KeyEvent) : App :=
  if quitArmMatches key.modifiers key.code then
    s.quit
  else if key.code = KeyCode.Enter then
    s.start_game
  else
    s

/-- App::handle_crossterm_events, with the event passed in instead of
read from the terminal: key events of kind Press go to on_key_event;
mouse, resize and all other events are consumed without effect. -/
def App.handle_crossterm_events (s : App) (e : Event) : App :=
  match e with
  | Event.Key k => if k.kind = KeyEventKind.Press then s.on_key_event k else s
  | Event.Mouse _ => s
  | Event.Resize _ _ => s
  | _ => s

/-- Folding a sequence of terminal events through the event handler,
as the main loop does one event per iteration. -/
def App.runEvents (s : App) (es : List Event) : App :=
  es.foldl App.handle_crossterm_events s

/-- App::center_line on a viewport of the given width and height,
returning the paragraph text it renders, or none when the guard
(height < 1 or width < 1) makes it return without rendering. -/
def center_line (width height : Nat) : Option String :=
  if height < 1 ∨ width < 1 then
    none
  else
    let center_col := min ((width - 1) / 2) width
    let line := (String.mk (List.replicate center_col ' ')).push '█'
    some (String.intercalate "\n" (List.replicate height line))

/-- The frame content produced by one render call: either the bordered
menu panel with its title and text, or the game bar paragraph. -/
inductive FrameContent where
  | MenuPanel (title text : String)
  | GameBar (content : Option String)
  deriving DecidableEq

/-- App::render: dispatch on the mode; the Menu branch renders the
bordered paragraph with the fixed title and text, the Game branch
renders what center_line produces for the frame area. -/
def App.render (s : App) (width height : Nat) : FrameContent :=
  match s.mode with
  | Mode.Menu =>
      FrameContent.MenuPanel "Pong Game\n"
        "Press `Esc`, `Ctrl-C` or `q` to stop running.\nPress `Enter` to start game"
  | Mode.Game =>
      FrameContent.GameBar (center_line width height)

/-- Operations main performs on the terminal session. -/
inductive MainOp where
  | initTerminal
  | restoreTerminal
  deriving DecidableEq

/-- The body of fn main after color_eyre::install: ratatui::init
acquires the terminal session, App::new().run(terminal) executes the
loop, ratatui::restore releases the session, and the stored result of
run is returned. The run call is abstracted by the result it produced;
the trace lists the session operations in order. -/
def mainProg (runResult : Except String Unit) :
    List MainOp × Except String Unit :=
  ([MainOp.initTerminal, MainOp.restoreTerminal], runResult)

/-- Helper: a single handled event never turns running back on and
never moves the mode back to Menu. -/
theorem handle_step_mono (s : App) (e : Event) :
    ((s.handle_crossterm_events e).running = true → s.running = true) ∧
    ((s.handle_crossterm_events e).mode = Mode.Menu → s.mode = Mode.Menu) := by
  cases e with
  | Key k =>
      simp only [App.handle_crossterm_events]
      by_cases hk : k.kind = KeyEventKind.Press
      · simp only [hk, if_pos rfl]
        simp only [App.on_key_event]
        by_cases hq : quitArmMatches k.modifiers k.code = true
        · simp [hq, App.quit]
        · simp only [hq]
          by_cases he : k.code = KeyCode.Enter
          · simp [he, App.start_game]
          · simp [he]
      · simp [hk]
  | Mouse p => simp [App.handle_crossterm_events]
  | Resize w h => simp [App.handle_crossterm_events]
  | FocusGained => simp [App.handle_crossterm_events]
  | FocusLost => simp [App.handle_crossterm_events]
  | Paste p => simp [App.handle_crossterm_events]

/-- C1 counterexample: App::new() has running = false, so a freshly
constructed application does not have running = true. -/
theorem app_new_claim_false :
    ¬ (App.new.running = true ∧ App.new.mode = Mode.Menu) := by
  intro h
  exact absurd h.1 (by decide)

/-- C1 (amended): a freshly constructed application (App::new()) has
running = false and mode = Menu; the running flag only becomes true
when run() sets it before entering the loop. -/
theorem app_new_initial_state :
    App.new.running = false ∧ App.new.mode = Mode.Menu := by
  exact ⟨rfl, rfl⟩

/-- C2: from any state, a key event for Escape, the character q, or
c/C with exactly the CONTROL modifier sets running to false and
leaves the mode unchanged. -/
theorem quit_keys_quit (s : App) (k : KeyEvent)
    (h : k.code = KeyCode.Esc ∨ k.code = KeyCode.Char 'q' ∨
      (k.modifiers = KeyModifiers.CONTROL ∧
        (k.code = KeyCode.Char 'c' ∨ k.code = KeyCode.Char 'C'))) :
    (s.on_key_event k).running = false ∧ (s.on_key_event k).mode = s.mode := by
  have hq : quitArmMatches k.modifiers k.code = true := by
    rcases h with h | h | ⟨hm, h | h⟩
    · simp [quitArmMatches, h]
    · simp [quitArmMatches, h]
    · simp [quitArmMatches, h, hm]
    · simp [quitArmMatches, h, hm]
  simp [App.on_key_event, hq, App.quit]

/-- C2 witness: pressing Escape in the menu stops the application and
keeps the mode at Menu. -/
theorem quit_keys_quit_witness :
    ((⟨true, Mode.Menu⟩ : App).on_key_event
        ⟨KeyCode.Esc, KeyModifiers.NONE, KeyEventKind.Press⟩).running = false ∧
    ((⟨true, Mode.Menu⟩ : App).on_key_event
        ⟨KeyCode.Esc, KeyModifiers.NONE, KeyEventKind.Press⟩).mode = Mode.Menu :=
  quit_keys_quit ⟨true, Mode.Menu⟩
    ⟨KeyCode.Esc, KeyModifiers.NONE, KeyEventKind.Press⟩ (Or.inl rfl)

/-- C3: an Enter key event from Menu yields mode = Game with running
unchanged; from Game it leaves the whole state unchanged. -/
theorem enter_starts_game (s : App) (k : KeyEvent)
    (h : k.code = KeyCode.Enter) :
    ((s.mode = Mode.Menu → (s.on_key_event k).mode = Mode.Game ∧
        (s.on_key_event k).running = s.running) ∧
     (s.mode = Mode.Game → s.on_key_event k = s)) := by
  have hq : quitArmMatches k.modifiers KeyCode.Enter = false := by
    simp [quitArmMatches]
  constructor
  · intro _
    simp [App.on_key_event, h, hq, App.start_game]
  · intro hg
    have : s = ⟨s.running, Mode.Game⟩ := by
      cases s
      simp_all
    simp [App.on_key_event, h, hq, App.start_game]
    rw [this]

/-- C3 witness: Enter in the menu starts the game and keeps running;
Enter in the game changes nothing. -/
theorem enter_starts_game_witness :
    (((⟨true, Mode.Menu⟩ : App).on_key_event
        ⟨KeyCode.Enter, KeyModifiers.NONE, KeyEventKind.Press⟩).mode = Mode.Game ∧
      ((⟨true, Mode.Menu⟩ : App).on_key_event
        ⟨KeyCode.Enter, KeyModifiers.NONE, KeyEventKind.Press⟩).running =
        (⟨true, Mode.Menu⟩ : App).running) ∧
    ((⟨true, Mode.Game⟩ : App).on_key_event
        ⟨KeyCode.Enter, KeyModifiers.NONE, KeyEventKind.Press⟩ =
      (⟨true, Mode.Game⟩ : App)) :=
  ⟨(enter_starts_game ⟨true, Mode.Menu⟩
      ⟨KeyCode.Enter, KeyModifiers.NONE, KeyEventKind.Press⟩ rfl).1 rfl,
   (enter_starts_game ⟨true, Mode.Game⟩
      ⟨KeyCode.Enter, KeyModifiers.NONE, KeyEventKind.Press⟩ rfl).2 rfl⟩

/-- C4: every event that is not a key press of a quit key or of Enter
— other key presses, key releases and repeats, mouse events, resize
and focus and paste events — leaves the state unchanged. -/
theorem irrelevant_input_inert (s : App) (e : Event)
    (h : ∀ k : KeyEvent, e = Event.Key k → k.kind = KeyEventKind.Press →
      quitArmMatches k.modifiers k.code = false ∧ k.code ≠ KeyCode.Enter) :
    s.handle_crossterm_events e = s := by
  cases e with
  | Key k =>
      simp only [App.handle_crossterm_events]
      by_cases hk : k.kind = KeyEventKind.Press
      · obtain ⟨hq, he⟩ := h k rfl hk
        simp [hk, App.on_key_event, hq, he]
      · simp [hk]
  | Mouse p => rfl
  | Resize w h => rfl
  | FocusGained => rfl
  | FocusLost => rfl
  | Paste p => rfl

/-- C4 witness: a mouse event and an x key press both leave the state
unchanged. -/
theorem irrelevant_input_inert_witness :
    (⟨true, Mode.Menu⟩ : App).handle_crossterm_events (Event.Mouse 0) =
      (⟨true, Mode.Menu⟩ : App) ∧
    (⟨true, Mode.Menu⟩ : App).handle_crossterm_events
        (Event.Key ⟨KeyCode.Char 'x', KeyModifiers.NONE, KeyEventKind.Press⟩) =
      (⟨true, Mode.Menu⟩ : App) :=
  ⟨irrelevant_input_inert ⟨true, Mode.Menu⟩ (Event.Mouse 0)
      (fun k hk => nomatch hk),
   irrelevant_input_inert ⟨true, Mode.Menu⟩
      (Event.Key ⟨KeyCode.Char 'x', KeyModifiers.NONE, KeyEventKind.Press⟩)
      (fun k hk _ => by cases hk; exact ⟨by decide, by decide⟩)⟩

/-- Helper: the quit arm of the key match fires exactly on Esc, the
character q, or c/C with modifiers exactly CONTROL. -/
theorem quitArmMatches_iff (m : KeyModifiers) (c : KeyCode) :
    quitArmMatches m c = true ↔
      (c = KeyCode.Esc ∨ c = KeyCode.Char 'q' ∨
        (m = KeyModifiers.CONTROL ∧
          (c = KeyCode.Char 'c' ∨ c = KeyCode.Char 'C'))) := by
  simp [quitArmMatches, or_assoc]

/-- C5: for width W at least 1 and height H at least 1, the game bar
text is exactly H lines joined by newlines, each line being
center_col = min(W, (W-1)/2) blanks followed by one block glyph; in
particular for W = 10, H = 3 it is 3 lines of 4 blanks and a block. -/
theorem center_line_bar (W H : Nat) (hW : 1 ≤ W) (hH : 1 ≤ H) :
    center_line W H =
      some (String.intercalate "\n" (List.replicate H
        ((String.mk (List.replicate (min W ((W - 1) / 2)) ' ')).push '█'))) ∧
    center_line 10 3 = some "    █\n    █\n    █" := by
  constructor
  · have hcond : ¬ (H < 1 ∨ W < 1) := by omega
    simp only [center_line, if_neg hcond]
    rw [Nat.min_comm]
  · rfl

/-- C5 witness: the bar text for a 10 by 3 viewport, obtained from the
general theorem. -/
theorem center_line_bar_witness :
    center_line 10 3 =
      some (String.intercalate "\n" (List.replicate 3
        ((String.mk (List.replicate (min 10 ((10 - 1) / 2)) ' ')).push '█'))) :=
  (center_line_bar 10 3 (by decide) (by decide)).1

/-- C6: a viewport of width 0 or height 0 makes the game renderer
produce nothing; the function is total, so it cannot fail. -/
theorem center_line_degenerate (W H : Nat) (h : W = 0 ∨ H = 0) :
    center_line W H = none := by
  rcases h with h | h <;> simp [center_line, h]

/-- C6 witness: width 0 with height 5 renders nothing. -/
theorem center_line_degenerate_witness : center_line 0 5 = none :=
  center_line_degenerate 0 5 (Or.inl rfl)

/-- C7: across any sequence of handled events, mode never moves back
from Game to Menu and running never moves back from false to true. -/
theorem mode_running_monotone (s : App) (es : List Event) :
    ((App.runEvents s es).running = true → s.running = true) ∧
    ((App.runEvents s es).mode = Mode.Menu → s.mode = Mode.Menu) := by
  induction es generalizing s with
  | nil => exact ⟨fun h => h, fun h => h⟩
  | cons e es ih =>
      exact ⟨fun h =>
          (handle_step_mono s e).1 ((ih (s.handle_crossterm_events e)).1 h),
        fun h =>
          (handle_step_mono s e).2 ((ih (s.handle_crossterm_events e)).2 h)⟩

/-- C7 witness: the monotonicity theorem applied to the started menu
state and a resize event. -/
theorem mode_running_monotone_witness :
    (⟨true, Mode.Menu⟩ : App).running = true ∧
    (⟨true, Mode.Menu⟩ : App).mode = Mode.Menu :=
  ⟨(mode_running_monotone ⟨true, Mode.Menu⟩ [Event.Resize 3 3]).1 (by decide),
   (mode_running_monotone ⟨true, Mode.Menu⟩ [Event.Resize 3 3]).2 (by decide)⟩

/-- C8: the renderer is a pure function of mode and viewport: two
states with the same mode render byte-identical content at the same
viewport, whatever the rest of the state. -/
theorem render_pure (s1 s2 : App) (w h : Nat) (hm : s1.mode = s2.mode) :
    s1.render w h = s2.render w h := by
  unfold App.render
  rw [hm]

/-- C8 witness: two game states differing in the running flag render
the same 10 by 3 frame. -/
theorem render_pure_witness :
    (⟨true, Mode.Game⟩ : App).render 10 3 =
      (⟨false, Mode.Game⟩ : App).render 10 3 :=
  render_pure ⟨true, Mode.Game⟩ ⟨false, Mode.Game⟩ 10 3 rfl

/-- C9: for every result of run, clean or error, main performs the
terminal restore as its last session operation and only then returns
that result unchanged to the process boundary. -/
theorem restore_runs_on_every_exit (r : Except String Unit) :
    MainOp.restoreTerminal ∈ (mainProg r).1 ∧
    (mainProg r).1.getLast? = some MainOp.restoreTerminal ∧
    (mainProg r).2 = r := by
  refine ⟨?_, rfl, rfl⟩
  simp [mainProg]

/-- C10: from a running state, a key event quits exactly when its code
is Esc or Char q under any modifiers, or its modifiers are exactly
CONTROL and its code is Char c or Char C; concretely Alt+q and Ctrl+q
quit while Ctrl+Shift+C and plain Q do not. -/
theorem quit_condition_characterization (s : App) (k : KeyEvent)
    (h : s.running = true) :
    ((s.on_key_event k).running = false ↔
      (k.code = KeyCode.Esc ∨ k.code = KeyCode.Char 'q' ∨
        (k.modifiers = KeyModifiers.CONTROL ∧
          (k.code = KeyCode.Char 'c' ∨ k.code = KeyCode.Char 'C')))) ∧
    ((⟨true, Mode.Menu⟩ : App).on_key_event
        ⟨KeyCode.Char 'q', KeyModifiers.ALT, KeyEventKind.Press⟩).running = false ∧
    ((⟨true, Mode.Menu⟩ : App).on_key_event
        ⟨KeyCode.Char 'q', KeyModifiers.CONTROL, KeyEventKind.Press⟩).running = false ∧
    ((⟨true, Mode.Menu⟩ : App).on_key_event
        ⟨KeyCode.Char 'C', KeyModifiers.CONTROL_SHIFT, KeyEventKind.Press⟩).running = true ∧
    ((⟨true, Mode.Menu⟩ : App).on_key_event
        ⟨KeyCode.Char 'Q', KeyModifiers.NONE, KeyEventKind.Press⟩).running = true := by
  refine ⟨?_, by decide, by decide, by decide, by decide⟩
  rw [← quitArmMatches_iff]
  by_cases hq : quitArmMatches k.modifiers k.code = true
  · simp [App.on_key_event, hq, App.quit]
  · by_cases he : k.code = KeyCode.Enter
    · rw [he] at hq
      simp [App.on_key_event, hq, he, App.start_game, h]
    · simp [App.on_key_event, hq, he, h]

/-- C10 witness: the characterization applied to pressing Escape in
the running menu state. -/
theorem quit_condition_characterization_witness :
    ((⟨true, Mode.Menu⟩ : App).on_key_event
        ⟨KeyCode.Esc, KeyModifiers.NONE, KeyEventKind.Press⟩).running = false :=
  (quit_condition_characterization ⟨true, Mode.Menu⟩
      ⟨KeyCode.Esc, KeyModifiers.NONE, KeyEventKind.Press⟩ rfl).1.mpr (Or.inl rfl)
